import Mathlib

/-
Verification of the resilient filesystem layer (src/util/fs.ts) and the
mod-removal / reconciliation event handlers of the Vortex repository.

The asynchronous promise chains of the source are embedded as pure Lean
functions.  The underlying OS operation is modelled by a script: the list of
error codes of its successive failed attempts (after the list is exhausted the
operation succeeds).  The recovery collaborator (electron dialog) is modelled
by a list of user responses consumed one per dialog invocation, together with
a log of the button sets that were presented; an empty response list
corresponds to the dialog object being undefined (headless run).  Errors carry
a kind (OS error code, user cancellation, generic message) plus a flag telling
whether restackErr annotated them with the captured backtrace.
-/

namespace Vortex

/-- OS error codes occurring in src/util/fs.ts. -/
inductive ErrCode
  | ENOENT
  | EBUSY
  | ENOSPC
  | EPERM
  | EUNKNOWN
  | EEXIST
  | EOTHER
  deriving DecidableEq, Repr

/-- The kind of an error value: a NodeJS errno exception, the UserCanceled
error class from CustomErrors, or a plain Error with a message. -/
inductive ErrKind
  | osErr (code : ErrCode)
  | userCanceled
  | genericErr (msg : String)
  deriving DecidableEq, Repr

/-- An error value; `restacked` records whether restackErr replaced its stack
with the backtrace captured at the wrapper call site. -/
structure FsError where
  kind : ErrKind
  restacked : Bool
  deriving DecidableEq, Repr

/-- restackErr (fs.ts line 177): attaches the captured backtrace to the error.
It mutates the stack property only; the error object (and hence its class,
e.g. UserCanceled) is preserved. -/
def restackErr (e : FsError) : FsError :=
  { e with restacked := true }

/-- Whether a wrapped call rejected with the UserCanceled error class. -/
def isCanceledResult (r : Except FsError Unit) : Bool :=
  match r with
  | Except.error e => e.kind == ErrKind.userCanceled
  | Except.ok _ => false

/-- A button the user can press in a recovery dialog. Index mapping in the
source: Cancel is choice 0, Retry choice 1, Give permission choice 2. -/
inductive DialogChoice
  | cancel
  | retry
  | grantPermission
  deriving DecidableEq, Repr

/-- Outcome signalled by the out-of-process elevated helper: normal completion
(socket disconnect), rejection of the UAC prompt by the user (OS code 5), or
another OS failure. -/
inductive HelperSignal
  | completed
  | uacDeclined
  | osFailure (code : Nat) (msg : String)
  deriving DecidableEq, Repr

/-- State of the external collaborators during one wrapped call: the pending
user responses, the pending elevation outcomes, the processes wholocks
reports as holding the file, and the log of button sets presented so far. -/
structure Recovery where
  responses : List DialogChoice
  elevations : List HelperSignal
  procs : List String
  dialogLog : List (List String)
  deriving DecidableEq, Repr

/-- fs.ts line 49. -/
def NUM_RETRIES : Nat := 3

/-- fs.ts line 50. -/
def RETRY_DELAY_MS : Nat := 100

/-- fs.ts line 51. -/
def RETRY_ERRORS : List ErrCode :=
  [ErrCode.EPERM, ErrCode.EBUSY, ErrCode.EUNKNOWN]

/-- nospcQuery (fs.ts lines 53-73): disk-full dialog with buttons Cancel and
Retry; choice 0 rejects with UserCanceled, any other choice resolves true. -/
def nospcQuery (r : Recovery) : Recovery × Except FsError Bool :=
  match r.responses with
  | [] => (r, Except.ok false)
  | c :: rest =>
    let r2 : Recovery :=
      { r with responses := rest,
               dialogLog := r.dialogLog ++ [["Cancel", "Retry"]] }
    if c = DialogChoice.cancel then
      (r2, Except.error ⟨ErrKind.userCanceled, false⟩)
    else
      (r2, Except.ok true)

/-- busyRetry (fs.ts lines 116-142): file-busy dialog (with wholocks process
list as detail) with buttons Cancel and Retry; choice 0 rejects with
UserCanceled, any other choice resolves true. -/
def busyRetry (r : Recovery) : Recovery × Except FsError Bool :=
  match r.responses with
  | [] => (r, Except.ok false)
  | c :: rest =>
    let r2 : Recovery :=
      { r with responses := rest,
               dialogLog := r.dialogLog ++ [["Cancel", "Retry"]] }
    if c = DialogChoice.cancel then
      (r2, Except.error ⟨ErrKind.userCanceled, false⟩)
    else
      (r2, Except.ok true)

/-- Button list built by unlockConfirm (fs.ts lines 86-93): Cancel and Retry
always; Give permission is pushed only when wholocks found no process holding
the file. -/
def unlockConfirmButtons (procs : List String) : List String :=
  ["Cancel", "Retry"] ++ (if procs.isEmpty then ["Give permission"] else [])

/-- unlockConfirm (fs.ts lines 75-114): access-denied dialog. Choice 0 rejects
with UserCanceled; otherwise it resolves (choice = 2), i.e. true exactly when
the user picked Give permission, a button that only exists when no locking
process was found. -/
def unlockConfirm (r : Recovery) : Recovery × Except FsError Bool :=
  match r.responses with
  | [] => (r, Except.ok false)
  | c :: rest =>
    let r2 : Recovery :=
      { r with responses := rest,
               dialogLog := r.dialogLog ++ [unlockConfirmButtons r.procs] }
    if c = DialogChoice.cancel then
      (r2, Except.error ⟨ErrKind.userCanceled, false⟩)
    else
      (r2, Except.ok (c == DialogChoice.grantPermission && r.procs.isEmpty))

/-- elevated (fs.ts lines 382-428): spawns the privileged helper over a
uniquely named ipc channel; an OS rejection code 5 (user declined the UAC
prompt) is mapped to UserCanceled, another failure to a generic OS error, and
completion or disconnect to success. -/
def elevated (sig : HelperSignal) : Except FsError Unit :=
  match sig with
  | HelperSignal.completed => Except.ok ()
  | HelperSignal.uacDeclined => Except.error ⟨ErrKind.userCanceled, false⟩
  | HelperSignal.osFailure code msg =>
    Except.error ⟨ErrKind.genericErr ("OS error " ++ msg ++ " " ++ toString code), false⟩

/-- errorRepeat (fs.ts lines 144-175): decides whether a failed operation is
repeated. EBUSY consults busyRetry, ENOSPC consults nospcQuery, EPERM consults
unlockConfirm and, if the user chose Give permission, runs the elevated
helper; when elevation fails (for any reason) the original error is re-raised
after logging. Any other code resolves false (do not repeat). -/
def errorRepeat (c : ErrCode) (r : Recovery) : Recovery × Except FsError Bool :=
  match c with
  | ErrCode.EBUSY => busyRetry r
  | ErrCode.ENOSPC => nospcQuery r
  | ErrCode.EPERM =>
    match unlockConfirm r with
    | (r2, Except.error e) => (r2, Except.error e)
    | (r2, Except.ok doUnlock) =>
      if doUnlock then
        let sig := r2.elevations.headD HelperSignal.completed
        let r3 : Recovery := { r2 with elevations := r2.elevations.tail }
        match elevated sig with
        | Except.ok _ => (r3, Except.ok true)
        | Except.error _ =>
          (r3, Except.error ⟨ErrKind.osErr ErrCode.EPERM, false⟩)
      else
        (r2, Except.ok true)
  | _ => (r, Except.ok false)

/-- errorHandler (fs.ts lines 186-192): resolves when the operation should be
repeated, otherwise rejects with the error annotated with the captured
backtrace; an error raised by errorRepeat itself (UserCanceled from a dialog,
or the re-raised original error) is likewise annotated and re-raised. -/
def errorHandler (c : ErrCode) (r : Recovery) : Recovery × Except FsError Unit :=
  match errorRepeat c r with
  | (r2, Except.ok true) => (r2, Except.ok ())
  | (r2, Except.ok false) =>
    (r2, Except.error (restackErr ⟨ErrKind.osErr c, false⟩))
  | (r2, Except.error e) => (r2, Except.error (restackErr e))

/-- genWrapperAsync (fs.ts lines 194-202): retry loop around a wrapped
primitive. The underlying operation is modelled by the script of its failure
codes; when the script is exhausted the operation succeeds. On failure,
errorHandler either resolves (and the operation is re-issued) or rejects. -/
def genWrapperAsync : List ErrCode → Recovery → Recovery × Except FsError Unit
  | [], r => (r, Except.ok ())
  | c :: rest, r =>
    match errorHandler c r with
    | (r2, Except.ok _) => genWrapperAsync rest r2
    | (r2, Except.error e) => (r2, Except.error e)

/-- removeInt (fs.ts lines 317-332): rimraf-based removal; ENOENT resolves
(the target was already gone), any other error goes through errorHandler and
on resolution the removal is re-issued. -/
def removeInt : List ErrCode → Recovery → Recovery × Except FsError Unit
  | [], r => (r, Except.ok ())
  | c :: rest, r =>
    if c = ErrCode.ENOENT then
      (r, Except.ok ())
    else
      match errorHandler c r with
      | (r2, Except.ok _) => removeInt rest r2
      | (r2, Except.error e) => (r2, Except.error e)

/-- removeAsync (fs.ts lines 313-315). -/
def removeAsync (script : List ErrCode) (r : Recovery) : Recovery × Except FsError Unit :=
  removeInt script r

/-- unlinkInt (fs.ts lines 338-345): same shape as removeInt over fs.unlink. -/
def unlinkInt : List ErrCode → Recovery → Recovery × Except FsError Unit
  | [], r => (r, Except.ok ())
  | c :: rest, r =>
    if c = ErrCode.ENOENT then
      (r, Except.ok ())
    else
      match errorHandler c r with
      | (r2, Except.ok _) => unlinkInt rest r2
      | (r2, Except.error e) => (r2, Except.error e)

/-- unlinkAsync (fs.ts lines 334-336). -/
def unlinkAsync (script : List ErrCode) (r : Recovery) : Recovery × Except FsError Unit :=
  unlinkInt script r

/-- rmdirInt (fs.ts lines 368-380): non-interactive deletion path. ENOENT
resolves; a code in RETRY_ERRORS is retried after a fixed delay while tries
remain (the second component collects the delays of the performed retries);
otherwise the error propagates annotated with the captured backtrace. No
recovery collaborator is involved (the function does not touch a Recovery). -/
def rmdirInt : List ErrCode → Nat → Except FsError Unit × List Nat
  | [], _ => (Except.ok (), [])
  | c :: rest, tries =>
    if c = ErrCode.ENOENT then
      (Except.ok (), [])
    else if c ∈ RETRY_ERRORS ∧ 0 < tries then
      let next := rmdirInt rest (tries - 1)
      (next.1, RETRY_DELAY_MS :: next.2)
    else
      (Except.error (restackErr ⟨ErrKind.osErr c, false⟩), [])

/-- rmdirAsync (fs.ts lines 364-366): rmdirInt with NUM_RETRIES tries. -/
def rmdirAsync (script : List ErrCode) : Except FsError Unit × List Nat :=
  rmdirInt script NUM_RETRIES

/-- selfCopyCheck (fs.ts lines 268-275): stats source and destination (a
missing destination yields empty stats, whose ino cannot equal a real ino)
and rejects with a descriptive error when the two resolve to the same file
identity. -/
def selfCopyCheck (src dest : String) (srcIno : Nat) (destIno : Option Nat) :
    Except FsError Unit :=
  match destIno with
  | some d =>
    if srcIno = d then
      Except.error
        ⟨ErrKind.genericErr
          ("Source " ++ src ++ " and destination " ++ dest ++ " are the same file"), false⟩
    else
      Except.ok ()
  | none => Except.ok ()

/-- copyInt (fs.ts lines 300-307): retry loop for fs.copy via errorHandler. -/
def copyInt : List ErrCode → Recovery → Recovery × Except FsError Unit
  | [], r => (r, Except.ok ())
  | c :: rest, r =>
    match errorHandler c r with
    | (r2, Except.ok _) => copyInt rest r2
    | (r2, Except.error e) => (r2, Except.error e)

/-- Result of copyAsync: final collaborator state, the settled promise, and
whether copyInt was invoked at all (i.e. whether any data transfer was
attempted). -/
structure CopyOutcome where
  state : Recovery
  result : Except FsError Unit
  copyAttempted : Bool
  deriving Repr

/-- copyAsync (fs.ts lines 288-298): unless the caller disabled it via
noSelfCopy, runs selfCopyCheck before any copying; the copy itself then runs
through copyInt; every rejection is annotated with the captured backtrace. -/
def copyAsync (src dest : String) (srcIno : Nat) (destIno : Option Nat)
    (noSelfCopy : Bool) (script : List ErrCode) (r : Recovery) : CopyOutcome :=
  let check := if noSelfCopy then Except.ok () else selfCopyCheck src dest srcIno destIno
  match check with
  | Except.error e => ⟨r, Except.error (restackErr e), false⟩
  | Except.ok _ =>
    match copyInt script r with
    | (r2, Except.ok _) => ⟨r2, Except.ok (), true⟩
    | (r2, Except.error e) => ⟨r2, Except.error (restackErr e), true⟩

/-- The error codes whose recovery path is interactive (consults the recovery
collaborator) in errorRepeat. -/
def interactiveCodes : List ErrCode :=
  [ErrCode.EBUSY, ErrCode.ENOSPC, ErrCode.EPERM]

/-- Lifecycle state of a mod (types/IMod). -/
inductive ModState
  | downloading
  | downloaded
  | installed
  deriving DecidableEq, Repr

/-- Error taxonomy seen by the orchestrator (util/CustomErrors plus fs
ENOENT). -/
inductive OrchErr
  | notFound
  | temporary (msg : String)
  | processCanceled (msg : String)
  | userCanceledErr
  | generic (msg : String)
  deriving DecidableEq, Repr

/-- The user-visible message tier produced by the catch chain of onRemoveMod:
TemporaryError is reported without a bug-report prompt and with retry
guidance, ProcessCanceled without a bug-report prompt, anything else with a
generic (bug-report eligible) notification. -/
inductive ReportTier
  | temporaryNoReport
  | canceledNoReport
  | genericReport
  deriving DecidableEq, Repr

/-- Classification performed by the catch chain of onRemoveMod (part_002
lines 311-332): catch TemporaryError, then catch ProcessCanceled, then a
generic catch. -/
def classify (e : OrchErr) : ReportTier :=
  match e with
  | OrchErr.temporary _ => ReportTier.temporaryNoReport
  | OrchErr.processCanceled _ => ReportTier.canceledNoReport
  | _ => ReportTier.genericReport

/-- `['downloaded', 'installed'].indexOf(state) !== -1`, the lifecycle test
used both by the removal gate (part_002 line 250) and by the reconciliation
removal callback (part_002 lines 138 and 166). -/
def isDownloadedOrInstalled (s : ModState) : Bool :=
  s == ModState.downloaded || s == ModState.installed

/-- The removal gate applied to a possibly-unknown mod state. -/
def stateRemovable (s : Option ModState) : Bool :=
  match s with
  | some st => isDownloadedOrInstalled st
  | none => false

/-- Observable steps performed by onRemoveMod, in order. -/
inductive Action
  | dispatchSetModEnabled (enabled : Bool)
  | runUndeploy
  | runRemoveDir
  | dispatchRemoveMod
  | callbackOk
  | reportError (tier : ReportTier)
  deriving DecidableEq, Repr

/-- undeploy (part_002 lines 196-239): resolves trivially when the game was
never discovered; rejects with ProcessCanceled when no deployment method is
active; otherwise chains loadActivation, activator.prepare,
activator.deactivate, activator.finalize and saveActivation, each step
running only after the previous one succeeded. -/
def undeploy (discovered activatorFound : Bool)
    (loadR prepareR deactivateR finalizeR saveR : Except OrchErr Unit) :
    Except OrchErr Unit :=
  if !discovered then
    Except.ok ()
  else if !activatorFound then
    Except.error (OrchErr.processCanceled "No deployment method active")
  else do
    loadR
    prepareR
    deactivateR
    finalizeR
    saveR

/-- Inputs determining one run of onRemoveMod: the tracked lifecycle state of
the mod, whether the mods table and the mod entry exist in state, whether the
mod was enabled in the last active profile, the inputs of undeploy, and the
outcome of fs.removeAsync on the installation directory. -/
structure RemovalInput where
  modState : Option ModState
  tableDefined : Bool
  modDefined : Bool
  wasEnabled : Bool
  discovered : Bool
  activatorFound : Bool
  loadR : Except OrchErr Unit
  prepareR : Except OrchErr Unit
  deactivateR : Except OrchErr Unit
  finalizeR : Except OrchErr Unit
  saveR : Except OrchErr Unit
  removeDirR : Except OrchErr Unit
  deriving Repr

/-- The first step of the removal chain (part_002 line 300): undeploy when
the mod was enabled in the last active profile, a resolved promise
otherwise. -/
def undeployStep (inp : RemovalInput) : Except OrchErr Unit :=
  if inp.wasEnabled then
    undeploy inp.discovered inp.activatorFound inp.loadR inp.prepareR
      inp.deactivateR inp.finalizeR inp.saveR
  else
    Except.ok ()

/-- The catch on fs.removeAsync (part_002 line 303): an ENOENT from deleting
the installation directory is tolerated as success. -/
def tolerateAbsent (e : Except OrchErr Unit) : Except OrchErr Unit :=
  match e with
  | Except.error OrchErr.notFound => Except.ok ()
  | x => x

/-- onRemoveMod (part_002 lines 241-333) as the ordered list of its
observable steps: gate on the lifecycle state (rejecting with ProcessCanceled
during download or install), dispatch setModEnabled(false) for the last
active profile, look up the mod (a missing table is a caught exception, a
missing mod entry completes with a null callback), then run undeploy (when
enabled), delete the installation directory tolerating ENOENT, and only then
dispatch removeMod; any failure is classified and reported, leaving the mod
in tracked state. -/
def onRemoveMod (inp : RemovalInput) : List Action :=
  if !stateRemovable inp.modState then
    [Action.reportError (classify (OrchErr.processCanceled "during download or install"))]
  else
    let pre : List Action := [Action.dispatchSetModEnabled false]
    if !inp.tableDefined then
      pre ++ [Action.reportError ReportTier.genericReport]
    else if !inp.modDefined then
      pre ++ [Action.callbackOk]
    else
      let uActs : List Action := if inp.wasEnabled then [Action.runUndeploy] else []
      match undeployStep inp with
      | Except.error e => pre ++ uActs ++ [Action.reportError (classify e)]
      | Except.ok _ =>
        match tolerateAbsent inp.removeDirR with
        | Except.error e =>
          pre ++ uActs ++ [Action.runRemoveDir, Action.reportError (classify e)]
        | Except.ok _ =>
          pre ++ uActs ++ [Action.runRemoveDir, Action.dispatchRemoveMod, Action.callbackOk]

/-- Modelled from the spec: refreshMods (imported from ./util/refreshMods,
not under src/) compares the known-mods set against what is physically
present in the staging directory; mods present on disk but unknown are
reported as newly discovered, mods known but missing from disk are reported
as removed (spec section 4.4, Reconciliation). -/
def refreshMods (diskMods knownIds : List String) : List String × List String :=
  (diskMods.filter (fun m => !knownIds.contains m),
   knownIds.filter (fun m => !diskMods.contains m))

/-- The removal callback passed to refreshMods by onGameModeActivated
(part_002 lines 136-141) and onPathsChanged (lines 164-169): of the mod
names reported missing, only those whose tracked lifecycle state is
downloaded or installed are dispatched for removal from state. -/
def removeCallbackFilter (knownMods : List (String × ModState))
    (modNames : List String) : List String :=
  modNames.filter (fun n =>
    match knownMods.lookup n with
    | some s => isDownloadedOrInstalled s
    | none => false)

/-- The reconciliation pipeline of onGameModeActivated (part_002 lines
132-142): refreshMods over the known mod ids, the discovered mods being
added to state and the missing ones filtered by lifecycle state before being
dropped. Returns (added, dropped). -/
def onGameModeRefresh (knownMods : List (String × ModState))
    (diskMods : List String) : List String × List String :=
  let knownIds := knownMods.map Prod.fst
  let rm := refreshMods diskMods knownIds
  (rm.1, removeCallbackFilter knownMods rm.2)

/-! Helper lemmas about the recovery machinery. -/

lemma errorHandler_cancel (c : ErrCode) (r : Recovery) (tl : List DialogChoice)
    (hc : c ∈ interactiveCodes) (hr : r.responses = DialogChoice.cancel :: tl) :
    (errorHandler c r).2 = Except.error ⟨ErrKind.userCanceled, true⟩ := by
  simp only [interactiveCodes, List.mem_cons, List.not_mem_nil, or_false] at hc
  rcases hc with h | h | h <;> subst h <;>
    simp [errorHandler, errorRepeat, busyRetry, nospcQuery, unlockConfirm, hr, restackErr]

lemma errorHandler_retry (c : ErrCode) (r : Recovery) (tl : List DialogChoice)
    (hc : c ∈ interactiveCodes) (hr : r.responses = DialogChoice.retry :: tl) :
    (errorHandler c r).2 = Except.ok () ∧
    (errorHandler c r).1.responses = tl ∧
    (errorHandler c r).1.dialogLog.length = r.dialogLog.length + 1 := by
  simp only [interactiveCodes, List.mem_cons, List.not_mem_nil, or_false] at hc
  rcases hc with h | h | h <;> subst h <;>
    simp [errorHandler, errorRepeat, busyRetry, nospcQuery, unlockConfirm, hr]

lemma rmdirInt_exhaust (script : List ErrCode) (tries : Nat)
    (hall : ∀ c ∈ script, c ∈ RETRY_ERRORS) (hlen : tries < script.length) :
    rmdirInt script tries =
      (Except.error ⟨ErrKind.osErr (script.get ⟨tries, hlen⟩), true⟩,
       List.replicate tries RETRY_DELAY_MS) := by
  induction script generalizing tries with
  | nil => simp at hlen
  | cons c rest ih =>
    have hc : c ∈ RETRY_ERRORS := hall c (List.mem_cons_self c rest)
    have hc2 : c = ErrCode.EPERM ∨ c = ErrCode.EBUSY ∨ c = ErrCode.EUNKNOWN := by
      simpa [RETRY_ERRORS] using hc
    have hcne : c ≠ ErrCode.ENOENT := by
      rcases hc2 with h | h | h <;> subst h <;> decide
    cases tries with
    | zero =>
      simp [rmdirInt, hcne, restackErr]
    | succ k =>
      have hk : k < rest.length := by
        simpa using Nat.lt_of_succ_lt_succ hlen
      have ihr := ih k (fun x hx => hall x (List.mem_cons_of_mem c hx)) hk
      simp [rmdirInt, hcne, hc, ihr, List.replicate_succ]

lemma lookup_mem_keys {α β : Type} [DecidableEq α] (l : List (α × β)) (a : α) (b : β)
    (h : l.lookup a = some b) : a ∈ l.map Prod.fst := by
  induction l with
  | nil => simp [List.lookup] at h
  | cons p rest ih =>
    obtain ⟨k, v⟩ := p
    by_cases hk : a = k
    · subst hk; simp
    · have hbeq : (a == k) = false := by
        simp [hk]
      have h2 : List.lookup a rest = some b := by
        simpa [List.lookup, hbeq] using h
      have h3 := ih h2
      simp only [List.mem_map] at h3 ⊢
      rcases h3 with ⟨q, hq, hfst⟩
      exact ⟨q, List.mem_cons_of_mem _ hq, hfst⟩

/-! Claim theorems. -/

/-- Claim C1: for every operation wrapped with the interactive recovery
handler (the genWrapperAsync family, remove, unlink, copy), if the first
failure has an interactive-recovery code and the recovery collaborator's
first response is cancel, the call rejects with UserCanceled (merely
annotated with the captured backtrace, never converted to a generic failure
or to the underlying OS error by the retry layers). -/
theorem c1_cancel_rejects_userCanceled (c : ErrCode) (rest : List ErrCode)
    (tl : List DialogChoice) (r : Recovery)
    (hc : c ∈ interactiveCodes) (hr : r.responses = DialogChoice.cancel :: tl) :
    (genWrapperAsync (c :: rest) r).2 = Except.error ⟨ErrKind.userCanceled, true⟩ ∧
    (removeAsync (c :: rest) r).2 = Except.error ⟨ErrKind.userCanceled, true⟩ ∧
    (unlinkAsync (c :: rest) r).2 = Except.error ⟨ErrKind.userCanceled, true⟩ ∧
    (copyInt (c :: rest) r).2 = Except.error ⟨ErrKind.userCanceled, true⟩ := by
  have hcancel := errorHandler_cancel c r tl hc hr
  have hcne : c ≠ ErrCode.ENOENT := by
    simp only [interactiveCodes, List.mem_cons, List.not_mem_nil, or_false] at hc
    rcases hc with h | h | h <;> subst h <;> decide
  rcases he : errorHandler c r with ⟨r2, res⟩
  rw [he] at hcancel
  simp only at hcancel
  subst hcancel
  refine ⟨?_, ?_, ?_, ?_⟩ <;>
    simp [genWrapperAsync, removeAsync, removeInt, unlinkAsync, unlinkInt, copyInt, he, hcne]

/-- Claim C1 witness: a busy failure answered with cancel rejects with
UserCanceled for each wrapper. -/
theorem c1_witness :
    (genWrapperAsync [ErrCode.EBUSY] ⟨[DialogChoice.cancel], [], [], []⟩).2 =
      Except.error ⟨ErrKind.userCanceled, true⟩ ∧
    (removeAsync [ErrCode.EBUSY] ⟨[DialogChoice.cancel], [], [], []⟩).2 =
      Except.error ⟨ErrKind.userCanceled, true⟩ ∧
    (unlinkAsync [ErrCode.EBUSY] ⟨[DialogChoice.cancel], [], [], []⟩).2 =
      Except.error ⟨ErrKind.userCanceled, true⟩ ∧
    (copyInt [ErrCode.EBUSY] ⟨[DialogChoice.cancel], [], [], []⟩).2 =
      Except.error ⟨ErrKind.userCanceled, true⟩ :=
  c1_cancel_rejects_userCanceled ErrCode.EBUSY [] []
    ⟨[DialogChoice.cancel], [], [], []⟩ (by decide) rfl

/-- Claim C3: the deletion operations remove, unlink and rmdir treat an
underlying OS not-found error as success: when the first attempt fails with
ENOENT the wrapped call resolves, for every path (i.e. every collaborator
state and continuation script). -/
theorem c3_idempotent_delete (rest : List ErrCode) (r : Recovery) :
    (removeAsync (ErrCode.ENOENT :: rest) r).2 = Except.ok () ∧
    (unlinkAsync (ErrCode.ENOENT :: rest) r).2 = Except.ok () ∧
    (rmdirAsync (ErrCode.ENOENT :: rest)).1 = Except.ok () := by
  refine ⟨?_, ?_, ?_⟩ <;>
    simp [removeAsync, removeInt, unlinkAsync, unlinkInt, rmdirAsync, rmdirInt]

/-- Claim C4: retry convergence. If the underlying operation fails with an
interactive-recovery code exactly N times and then succeeds and the
collaborator answers retry each time, the wrapped call succeeds and the
collaborator is invoked exactly N times (one dialog per failure). -/
theorem c4_retry_convergence (script : List ErrCode) (r : Recovery)
    (hcodes : ∀ c ∈ script, c ∈ interactiveCodes)
    (hresp : r.responses = List.replicate script.length DialogChoice.retry) :
    (genWrapperAsync script r).2 = Except.ok () ∧
    (genWrapperAsync script r).1.dialogLog.length =
      r.dialogLog.length + script.length := by
  induction script generalizing r with
  | nil => simp [genWrapperAsync]
  | cons c rest ih =>
    have hc : c ∈ interactiveCodes := hcodes c (List.mem_cons_self c rest)
    have hr : r.responses =
        DialogChoice.retry :: List.replicate rest.length DialogChoice.retry := by
      simpa [List.replicate_succ] using hresp
    have hstep := errorHandler_retry c r
      (List.replicate rest.length DialogChoice.retry) hc hr
    rcases he : errorHandler c r with ⟨r2, res⟩
    rw [he] at hstep
    simp only at hstep
    obtain ⟨hok, hresp2, hlog2⟩ := hstep
    subst hok
    have ihr := ih r2 (fun x hx => hcodes x (List.mem_cons_of_mem c hx)) hresp2
    constructor
    · simp [genWrapperAsync, he, ihr.1]
    · simp only [genWrapperAsync, he, List.length_cons]
      rw [ihr.2, hlog2]
      omega

/-- Claim C4 witness: three retryable failures answered with retry converge
with exactly three collaborator invocations. -/
theorem c4_witness :
    (genWrapperAsync [ErrCode.EBUSY, ErrCode.ENOSPC, ErrCode.EPERM]
      ⟨[DialogChoice.retry, DialogChoice.retry, DialogChoice.retry], [], [], []⟩).2 =
      Except.ok () ∧
    (genWrapperAsync [ErrCode.EBUSY, ErrCode.ENOSPC, ErrCode.EPERM]
      ⟨[DialogChoice.retry, DialogChoice.retry, DialogChoice.retry], [], [], []⟩).1.dialogLog.length =
      0 + 3 :=
  c4_retry_convergence [ErrCode.EBUSY, ErrCode.ENOSPC, ErrCode.EPERM]
    ⟨[DialogChoice.retry, DialogChoice.retry, DialogChoice.retry], [], [], []⟩
    (by decide) rfl

/-- Claim C5: when source and destination resolve to the same file identity,
copyAsync with the guard enabled (the default) rejects with the descriptive
self-copy error before any data transfer is attempted, while with noSelfCopy
set the identity check is skipped entirely and the copy proceeds regardless
of the file identities. -/
theorem c5_self_copy_guard (src dest : String) (ino : Nat) (destIno : Option Nat)
    (script : List ErrCode) (r : Recovery) :
    (copyAsync src dest ino (some ino) false script r).result =
      Except.error
        ⟨ErrKind.genericErr
          ("Source " ++ src ++ " and destination " ++ dest ++ " are the same file"),
         true⟩ ∧
    (copyAsync src dest ino (some ino) false script r).copyAttempted = false ∧
    (copyAsync src dest ino destIno true script r).copyAttempted = true := by
  refine ⟨?_, ?_, ?_⟩
  · simp [copyAsync, selfCopyCheck, restackErr]
  · simp [copyAsync, selfCopyCheck]
  · simp only [copyAsync]
    rcases hc : copyInt script r with ⟨r2, res⟩
    cases res <;> simp [hc]

/-- Claim C7: on the non-interactive deletion path rmdir, an error in the
transient set is retried automatically exactly NUM_RETRIES times, each retry
after the fixed delay RETRY_DELAY_MS and without any recovery-collaborator
interaction (rmdirInt takes no collaborator state at all); when the error
persists past the retries it propagates annotated with the captured
backtrace. -/
theorem c7_rmdir_bounded_retry (script : List ErrCode)
    (hall : ∀ c ∈ script, c ∈ RETRY_ERRORS) (hlen : NUM_RETRIES < script.length) :
    rmdirAsync script =
      (Except.error ⟨ErrKind.osErr (script.get ⟨NUM_RETRIES, hlen⟩), true⟩,
       List.replicate NUM_RETRIES RETRY_DELAY_MS) :=
  rmdirInt_exhaust script NUM_RETRIES hall hlen

/-- Claim C7 witness: four persistent transient failures exhaust the three
retries and the fourth error propagates, backtrace-annotated, after three
fixed delays. -/
theorem c7_witness :
    rmdirAsync [ErrCode.EBUSY, ErrCode.EPERM, ErrCode.EUNKNOWN, ErrCode.EBUSY] =
      (Except.error ⟨ErrKind.osErr ErrCode.EBUSY, true⟩, [100, 100, 100]) := by
  have h := c7_rmdir_bounded_retry
    [ErrCode.EBUSY, ErrCode.EPERM, ErrCode.EUNKNOWN, ErrCode.EBUSY]
    (by decide) (by decide)
  simpa using h

/-- Claim C2 counterexample: an EPERM failure, the user choosing Give
permission, and the elevated helper failing with the OS rejection code for a
declined privilege prompt make the wrapped call reject with the original
permission error, not with UserCanceled — refuting the claim as stated. -/
theorem c2_counterexample :
    (genWrapperAsync [ErrCode.EPERM]
      ⟨[DialogChoice.grantPermission], [HelperSignal.uacDeclined], [], []⟩).2 =
      Except.error ⟨ErrKind.osErr ErrCode.EPERM, true⟩ ∧
    isCanceledResult (genWrapperAsync [ErrCode.EPERM]
      ⟨[DialogChoice.grantPermission], [HelperSignal.uacDeclined], [], []⟩).2 = false := by
  constructor
  · rfl
  · rfl

/-- Claim C2 amended: when the user chooses grant-permission and then
declines the OS privilege prompt, the elevated helper itself rejects with
UserCanceled (code 5 is mapped to it), but errorRepeat logs that rejection
and re-raises the original error, so the original operation rejects with the
backtrace-annotated original permission error, not with UserCanceled. -/
theorem c2_amended (rest : List ErrCode) (tl : List DialogChoice)
    (es : List HelperSignal) (r : Recovery)
    (hresp : r.responses = DialogChoice.grantPermission :: tl)
    (helev : r.elevations = HelperSignal.uacDeclined :: es)
    (hprocs : r.procs = []) :
    elevated HelperSignal.uacDeclined = Except.error ⟨ErrKind.userCanceled, false⟩ ∧
    (genWrapperAsync (ErrCode.EPERM :: rest) r).2 =
      Except.error ⟨ErrKind.osErr ErrCode.EPERM, true⟩ := by
  refine ⟨rfl, ?_⟩
  simp [genWrapperAsync, errorHandler, errorRepeat, unlockConfirm, elevated,
    hresp, helev, hprocs, restackErr]

/-- Claim C2 amended witness: concrete instance of the amended behaviour. -/
theorem c2_witness :
    elevated HelperSignal.uacDeclined = Except.error ⟨ErrKind.userCanceled, false⟩ ∧
    (genWrapperAsync [ErrCode.EPERM]
      ⟨[DialogChoice.grantPermission], [HelperSignal.uacDeclined], [], []⟩).2 =
      Except.error ⟨ErrKind.osErr ErrCode.EPERM, true⟩ :=
  c2_amended [] [] []
    ⟨[DialogChoice.grantPermission], [HelperSignal.uacDeclined], [], []⟩ rfl rfl rfl

/-- Claim C6 counterexample: when a process is found holding the file, the
permission-denied recovery dialog is presented with only Cancel and Retry —
the grant-permission option is absent — refuting the claim that all three
options are always offered. -/
theorem c6_counterexample :
    (errorRepeat ErrCode.EPERM
      ⟨[DialogChoice.retry], [], ["notepad"], []⟩).1.dialogLog =
      [["Cancel", "Retry"]] ∧
    ((errorRepeat ErrCode.EPERM
      ⟨[DialogChoice.retry], [], ["notepad"], []⟩).1.dialogLog.all
        (fun b => !b.contains "Give permission")) = true := by
  constructor
  · rfl
  · rfl

/-- Claim C6 amended: on a permission-denied error the recovery collaborator
is invoked once with Cancel and Retry always offered, and grant-permission
offered exactly when no process is identified as holding the file. -/
theorem c6_amended (r : Recovery) (c : DialogChoice) (tl : List DialogChoice)
    (hr : r.responses = c :: tl) :
    (errorRepeat ErrCode.EPERM r).1.dialogLog =
      r.dialogLog ++
        [["Cancel", "Retry"] ++
          (if r.procs.isEmpty then ["Give permission"] else [])] := by
  cases c with
  | cancel =>
    simp [errorRepeat, unlockConfirm, unlockConfirmButtons, hr]
  | retry =>
    simp [errorRepeat, unlockConfirm, unlockConfirmButtons, hr]
  | grantPermission =>
    by_cases hp : r.procs.isEmpty
    · cases he : r.elevations with
      | nil =>
        simp [errorRepeat, unlockConfirm, unlockConfirmButtons, elevated, hr, hp, he]
      | cons sig es =>
        cases sig <;>
          simp [errorRepeat, unlockConfirm, unlockConfirmButtons, elevated, hr, hp, he]
    · simp [errorRepeat, unlockConfirm, unlockConfirmButtons, hr, hp]

/-- Claim C6 amended witness: with no locking process, the dialog offers all
three options. -/
theorem c6_witness :
    (errorRepeat ErrCode.EPERM
      ⟨[DialogChoice.retry], [], [], []⟩).1.dialogLog =
      [] ++ [["Cancel", "Retry"] ++
        (if ([] : List String).isEmpty then ["Give permission"] else [])] :=
  c6_amended ⟨[DialogChoice.retry], [], [], []⟩ DialogChoice.retry [] rfl

/-- Claim C8: mod-removal sequencing. When the lifecycle gate passes and the
mod is tracked: an enabled mod is undeployed first; the installation
directory is deleted only after undeploy succeeded (an already-absent
directory being tolerated as success); the mod is dropped from state only
after both steps succeeded; and when any step fails the error is classified
via the TemporaryError / ProcessCanceled / generic catch chain and reported
while the mod stays in tracked state. -/
theorem c8_removal_sequencing (inp : RemovalInput)
    (hstate : stateRemovable inp.modState = true)
    (htab : inp.tableDefined = true) (hmod : inp.modDefined = true) :
    (inp.wasEnabled = true →
      (onRemoveMod inp).take 2 =
        [Action.dispatchSetModEnabled false, Action.runUndeploy]) ∧
    (∀ e, undeployStep inp = Except.error e →
      Action.runRemoveDir ∉ onRemoveMod inp ∧
      Action.dispatchRemoveMod ∉ onRemoveMod inp ∧
      Action.reportError (classify e) ∈ onRemoveMod inp) ∧
    (∀ e, undeployStep inp = Except.ok () →
        tolerateAbsent inp.removeDirR = Except.error e →
      Action.runRemoveDir ∈ onRemoveMod inp ∧
      Action.dispatchRemoveMod ∉ onRemoveMod inp ∧
      Action.reportError (classify e) ∈ onRemoveMod inp) ∧
    (undeployStep inp = Except.ok () →
        inp.removeDirR = Except.error OrchErr.notFound →
      Action.dispatchRemoveMod ∈ onRemoveMod inp) ∧
    (undeployStep inp = Except.ok () →
        tolerateAbsent inp.removeDirR = Except.ok () →
      onRemoveMod inp =
        [Action.dispatchSetModEnabled false] ++
          (if inp.wasEnabled then [Action.runUndeploy] else []) ++
          [Action.runRemoveDir, Action.dispatchRemoveMod, Action.callbackOk]) := by
  refine ⟨?_, ?_, ?_, ?_, ?_⟩
  · intro hw
    cases hu : undeployStep inp with
    | error e =>
      simp [onRemoveMod, hstate, htab, hmod, hw, hu]
    | ok u =>
      cases ht : tolerateAbsent inp.removeDirR with
      | error e => simp [onRemoveMod, hstate, htab, hmod, hw, hu, ht]
      | ok t => simp [onRemoveMod, hstate, htab, hmod, hw, hu, ht]
  · intro e hu
    cases hw : inp.wasEnabled <;>
      simp [onRemoveMod, hstate, htab, hmod, hw, hu]
  · intro e hu ht
    cases hw : inp.wasEnabled <;>
      simp [onRemoveMod, hstate, htab, hmod, hw, hu, ht]
  · intro hu hrd
    have ht : tolerateAbsent inp.removeDirR = Except.ok () := by
      simp [tolerateAbsent, hrd]
    cases hw : inp.wasEnabled <;>
      simp [onRemoveMod, hstate, htab, hmod, hw, hu, ht]
  · intro hu ht
    cases hw : inp.wasEnabled <;>
      simp [onRemoveMod, hstate, htab, hmod, hw, hu, ht]

/-- Claim C8 witness: an enabled installed mod whose undeploy fails with a
TemporaryError is reported without being dropped, and the directory deletion
is never attempted. -/
theorem c8_witness :
    Action.runRemoveDir ∉ onRemoveMod
      ⟨some ModState.installed, true, true, true, true, true,
       Except.ok (), Except.ok (), Except.error (OrchErr.temporary "locked"),
       Except.ok (), Except.ok (), Except.ok ()⟩ ∧
    Action.dispatchRemoveMod ∉ onRemoveMod
      ⟨some ModState.installed, true, true, true, true, true,
       Except.ok (), Except.ok (), Except.error (OrchErr.temporary "locked"),
       Except.ok (), Except.ok (), Except.ok ()⟩ ∧
    Action.reportError (classify (OrchErr.temporary "locked")) ∈ onRemoveMod
      ⟨some ModState.installed, true, true, true, true, true,
       Except.ok (), Except.ok (), Except.error (OrchErr.temporary "locked"),
       Except.ok (), Except.ok (), Except.ok ()⟩ :=
  (c8_removal_sequencing
    ⟨some ModState.installed, true, true, true, true, true,
     Except.ok (), Except.ok (), Except.error (OrchErr.temporary "locked"),
     Except.ok (), Except.ok (), Except.ok ()⟩
    rfl rfl rfl).2.1 (OrchErr.temporary "locked") rfl

/-- Claim C9: reconciliation. A mod present in the staging directory but
unknown to persisted state is reported as newly discovered and added, and a
known mod missing from the staging directory is dropped from state exactly
when its tracked lifecycle state is downloaded or installed (a mod in any
other state, such as downloading, is never dropped). -/
theorem c9_reconciliation (knownMods : List (String × ModState))
    (diskMods : List String) (m n : String) (s : ModState)
    (hm : m ∈ diskMods) (hmk : m ∉ knownMods.map Prod.fst)
    (hn : knownMods.lookup n = some s) (hnd : n ∉ diskMods) :
    m ∈ (onGameModeRefresh knownMods diskMods).1 ∧
    (n ∈ (onGameModeRefresh knownMods diskMods).2 ↔
      isDownloadedOrInstalled s = true) := by
  have hkeys : n ∈ knownMods.map Prod.fst := lookup_mem_keys knownMods n s hn
  constructor
  · simp [onGameModeRefresh, refreshMods, List.mem_filter, hm, hmk]
  · simp [onGameModeRefresh, refreshMods, removeCallbackFilter, List.mem_filter,
      hn, hnd, hkeys]

/-- Claim C9 witness: with known mods A (installed), B (downloading),
C (installed) and a staging directory holding only A and D, the unknown D is
discovered and the missing installed C is dropped. -/
theorem c9_witness :
    "D" ∈ (onGameModeRefresh
      [("A", ModState.installed), ("B", ModState.downloading), ("C", ModState.installed)]
      ["A", "D"]).1 ∧
    ("C" ∈ (onGameModeRefresh
      [("A", ModState.installed), ("B", ModState.downloading), ("C", ModState.installed)]
      ["A", "D"]).2 ↔ isDownloadedOrInstalled ModState.installed = true) :=
  c9_reconciliation
    [("A", ModState.installed), ("B", ModState.downloading), ("C", ModState.installed)]
    ["A", "D"] "D" "C" ModState.installed
    (by decide) (by decide) (by decide) (by decide)

/-- Claim C10: whenever the lifecycle gate passes, onRemoveMod dispatches
setModEnabled(false) for the last-active profile as its very first step,
before any undeploy or filesystem step; no step ever re-enables the mod, and
when a later step fails the mod is not dropped from state — so after a
failed removal the mod remains tracked but disabled. -/
theorem c10_disabled_before_removal (inp : RemovalInput)
    (hstate : stateRemovable inp.modState = true) :
    (onRemoveMod inp).head? = some (Action.dispatchSetModEnabled false) ∧
    Action.dispatchSetModEnabled true ∉ onRemoveMod inp ∧
    (∀ e, undeployStep inp = Except.error e →
      Action.dispatchRemoveMod ∉ onRemoveMod inp) ∧
    (∀ e, undeployStep inp = Except.ok () →
        tolerateAbsent inp.removeDirR = Except.error e →
      Action.dispatchRemoveMod ∉ onRemoveMod inp) := by
  refine ⟨?_, ?_, ?_, ?_⟩
  · cases htab : inp.tableDefined
    · simp [onRemoveMod, hstate, htab]
    · cases hmod : inp.modDefined
      · simp [onRemoveMod, hstate, htab, hmod]
      · cases hu : undeployStep inp with
        | error e =>
          cases hw : inp.wasEnabled <;>
            simp [onRemoveMod, hstate, htab, hmod, hu, hw]
        | ok u =>
          cases ht : tolerateAbsent inp.removeDirR with
          | error e =>
            cases hw : inp.wasEnabled <;>
              simp [onRemoveMod, hstate, htab, hmod, hu, ht, hw]
          | ok t =>
            cases hw : inp.wasEnabled <;>
              simp [onRemoveMod, hstate, htab, hmod, hu, ht, hw]
  · cases htab : inp.tableDefined
    · simp [onRemoveMod, hstate, htab]
    · cases hmod : inp.modDefined
      · simp [onRemoveMod, hstate, htab, hmod]
      · cases hu : undeployStep inp with
        | error e =>
          cases hw : inp.wasEnabled <;>
            simp [onRemoveMod, hstate, htab, hmod, hu, hw]
        | ok u =>
          cases ht : tolerateAbsent inp.removeDirR with
          | error e =>
            cases hw : inp.wasEnabled <;>
              simp [onRemoveMod, hstate, htab, hmod, hu, ht, hw]
          | ok t =>
            cases hw : inp.wasEnabled <;>
              simp [onRemoveMod, hstate, htab, hmod, hu, ht, hw]
  · intro e hu
    cases htab : inp.tableDefined
    · simp [onRemoveMod, hstate, htab]
    · cases hmod : inp.modDefined
      · simp [onRemoveMod, hstate, htab, hmod]
      · cases hw : inp.wasEnabled <;>
          simp [onRemoveMod, hstate, htab, hmod, hu, hw]
  · intro e hu ht
    cases htab : inp.tableDefined
    · simp [onRemoveMod, hstate, htab]
    · cases hmod : inp.modDefined
      · simp [onRemoveMod, hstate, htab, hmod]
      · cases hw : inp.wasEnabled <;>
          simp [onRemoveMod, hstate, htab, hmod, hu, ht, hw]

/-- Claim C10 witness: with a failing directory deletion, the mod is
disabled first and never dropped. -/
theorem c10_witness :
    (onRemoveMod
      ⟨some ModState.downloaded, true, true, false, true, true,
       Except.ok (), Except.ok (), Except.ok (), Except.ok (), Except.ok (),
       Except.error (OrchErr.generic "disk")⟩).head? =
      some (Action.dispatchSetModEnabled false) ∧
    Action.dispatchRemoveMod ∉ onRemoveMod
      ⟨some ModState.downloaded, true, true, false, true, true,
       Except.ok (), Except.ok (), Except.ok (), Except.ok (), Except.ok (),
       Except.error (OrchErr.generic "disk")⟩ := by
  have h := c10_disabled_before_removal
    ⟨some ModState.downloaded, true, true, false, true, true,
     Except.ok (), Except.ok (), Except.ok (), Except.ok (), Except.ok (),
     Except.error (OrchErr.generic "disk")⟩ rfl
  exact ⟨h.1, h.2.2.2 (OrchErr.generic "disk") rfl rfl⟩

end Vortex
